import Mathlib

/-!
Verification of the fetch-and-render interaction lifecycle of the A-car-demo
frontend (license-plate lookup screen).  The controller under study owns three
state fields (plate text, loading flag, last fetched record) and one transition
`submit`, which validates input, issues at most one GET request, and renders the
resulting car record.
-/

namespace CarApp

/-- A user-facing alert: a title/message pair. -/
structure Alert where
  title : String
  message : String
deriving DecidableEq

/-- GPS coordinates of a car, a pair of numeric fields. -/
structure Gps where
  lat : Rat
  lng : Rat
deriving DecidableEq

/-- CarRecord: decoded telemetry payload for one vehicle.  `gps` is optional
(absent or null in the JSON). -/
structure CarRecord where
  licensePlate : String
  owner : String
  indoorTemp : Rat
  outdoorTemp : Rat
  gps : Option Gps
  lastService : String
  lastUpdated : String
deriving DecidableEq

/-- Modelled from the spec: the controller state of the missing App component
(`plateInput: string`, `isLoading: bool`, `record: CarRecord | absent`). -/
structure ControllerState where
  plateInput : String
  isLoading : Bool
  record : Option CarRecord
deriving DecidableEq

/-- Initial state: empty input, not loading, no record. -/
def initialState : ControllerState := ⟨"", false, none⟩

/-- Error object carried by a rejected request: an optional message and an
optional HTTP status (a rejection may be shaped only as a response). -/
structure HttpError where
  message : Option String
  status : Option Nat
deriving DecidableEq

/-- Outcome of the in-flight HTTP request: a decoded record or an error. -/
inductive HttpOutcome where
  | success (rec : CarRecord)
  | failure (err : HttpError)
deriving DecidableEq

/-- The fixed base URL of the backend, as asserted by the repository tests. -/
def baseURL : String := "http://localhost:3001"

/-- Modelled from the spec: the GET endpoint is the fixed base path
concatenated with the literal plate value. -/
def requestUrl (plate : String) : String := baseURL ++ "/api/car/" ++ plate

/-- The alert fired when the trimmed plate input is empty. -/
def emptyPlateAlert : Alert := ⟨"Error", "Please enter a license plate number"⟩

/-- The optional detail appended to the failure alert message: the underlying
error detail where available, nothing otherwise (so building the message never
crashes on an error object without a message field). -/
def failDetail (e : HttpError) : String :=
  match e.message with
  | some m => ": " ++ m
  | none => ""

/-- Modelled from the spec: the failure alert message is a fixed prefix plus
the optional detail. -/
def failMessage (e : HttpError) : String :=
  "Failed to fetch car data" ++ failDetail e

/-- Result of one `submit` invocation: the new controller state, the list of
GET request URLs issued, and the list of alerts fired. -/
structure SubmitResult where
  state : ControllerState
  requests : List String
  alerts : List Alert
deriving DecidableEq

/-- Modelled from the spec: the emptiness test applied to the plate input,
true exactly when the input trimmed of whitespace is empty (i.e. the input is
empty or whitespace-only). -/
def trimmedEmpty (s : String) : Bool :=
  s.toList.all Char.isWhitespace

/-- Modelled from the spec: the synchronous part of the missing `submit()` of
the App component.  Guards in order: if loading, silent no-op; if the trimmed
plate is empty, fire the empty-plate alert and stop; otherwise set the loading
flag and issue one GET request. -/
def submitStart (s : ControllerState) : SubmitResult :=
  if s.isLoading then ⟨s, [], []⟩
  else if trimmedEmpty s.plateInput then ⟨s, [], [emptyPlateAlert]⟩
  else ⟨{ s with isLoading := true }, [requestUrl s.plateInput], []⟩

/-- Modelled from the spec: resolution of the outstanding request.  On success
the decoded body replaces the record wholesale; on failure the record is left
unchanged and the failure alert fires; either way the loading flag resets. -/
def resolve (s : ControllerState) (o : HttpOutcome) : ControllerState × List Alert :=
  match o with
  | .success r => ({ s with isLoading := false, record := some r }, [])
  | .failure e => ({ s with isLoading := false }, [⟨"Error", failMessage e⟩])

/-- Modelled from the spec: a full `submit()` cycle of the missing App
component, from invocation to the resolution of the request it issued (if it
issued one). -/
def submit (s : ControllerState) (o : HttpOutcome) : SubmitResult :=
  let r := submitStart s
  if r.requests.isEmpty then r
  else
    let p := resolve r.state o
    ⟨p.1, r.requests, r.alerts ++ p.2⟩

/-- `n` rapid consecutive `submit()` invocations, none of whose requests has
resolved yet: each press runs the synchronous part only; the issued request
URLs are collected in press order. -/
def rapidPresses : ControllerState → Nat → ControllerState × List String
  | s, 0 => (s, [])
  | s, n + 1 =>
    let r := submitStart s
    let rest := rapidPresses r.state n
    (rest.1, r.requests ++ rest.2)

/-- Left-pad a digit string with zeros to length `d`. -/
def padZeros (d : Nat) (s : String) : String :=
  String.mk (List.replicate (d - s.length) '0') ++ s

/-- Round half away from zero of `q * 10 ^ d`, as an integer. -/
def scaledRound (d : Nat) (q : Rat) : Int :=
  let num : Int := q.num * (10 : Int) ^ d
  let den : Int := (q.den : Int)
  if 0 ≤ num then (2 * num + den) / (2 * den)
  else -((2 * (-num) + den) / (2 * den))

/-- Modelled from the spec: decimal formatting to exactly `d` fractional
digits, the behaviour of JavaScript `toFixed(d)` on the values in scope. -/
def toFixed (q : Rat) (d : Nat) : String :=
  let n := scaledRound d q
  let sign := if n < 0 then "-" else ""
  let m := n.natAbs
  let ip := m / 10 ^ d
  let fp := m % 10 ^ d
  sign ++ toString ip ++ (if d = 0 then "" else "." ++ padZeros d (toString fp))

/-- The header line of the car-information block. -/
def renderHeader (r : CarRecord) : String :=
  "Car Information - " ++ r.licensePlate

/-- The GPS lines of the rendering: six-decimal coordinates when `gps` is
present, nothing at all when it is absent or null. -/
def gpsLines : Option Gps → List String
  | some g => ["GPS: " ++ toFixed g.lat 6 ++ ", " ++ toFixed g.lng 6]
  | none => []

/-- Modelled from the spec: the rendering of a present car record by the
missing App component, as a list of displayed text lines.  Temperatures carry
one decimal and a degree symbol, GPS carries six decimals when present, owner
and date strings appear verbatim. -/
def render (r : CarRecord) : List String :=
  [renderHeader r,
   "Owner: " ++ r.owner,
   "Outdoor Temperature: " ++ toFixed r.outdoorTemp 1 ++ "°C",
   "Indoor Temperature: " ++ toFixed r.indoorTemp 1 ++ "°C"]
  ++ gpsLines r.gps
  ++ ["Last Service: " ++ r.lastService,
      "Last Updated: " ++ r.lastUpdated]

/-- Whether a displayed line is a GPS line, i.e. starts with the GPS label. -/
def isGpsLine (l : String) : Bool :=
  decide (l.toList.take 4 = ['G', 'P', 'S', ':'])

/-- The mock car record used throughout the repository tests
(22.5, 15.2 and the GPS pair 60.1699, 24.9384 as exact rationals). -/
def mockCarData : CarRecord :=
  ⟨"ABC-123", "John Doe", mkRat 225 10, mkRat 152 10,
   some ⟨mkRat 601699 10000, mkRat 249384 10000⟩,
   "2024-10-15", "2025-11-19T10:00:00Z"⟩

/-- The mock record with the GPS field null, as in the missing-GPS test. -/
def mockNoGps : CarRecord := { mockCarData with gps := none }

/-- The 404-shaped rejection used by the repository tests: a response with a
status but no message field. -/
def notFoundError : HttpError := ⟨none, some 404⟩

example : toFixed (mkRat 225 10) 1 = "22.5" := by decide
example : toFixed (mkRat 601699 10000) 6 = "60.169900" := by decide
example : trimmedEmpty "  " = true := by decide
example : trimmedEmpty "ABC-123" = false := by decide
example : submit ⟨"", true, none⟩ (.failure ⟨none, none⟩) = ⟨⟨"", true, none⟩, [], []⟩ := by decide
example : submit ⟨"ABC-123", false, none⟩ (.success mockCarData)
    = ⟨⟨"ABC-123", false, some mockCarData⟩, [requestUrl "ABC-123"], []⟩ := by decide
example : render mockCarData =
    ["Car Information - ABC-123", "Owner: John Doe",
     "Outdoor Temperature: 15.2°C", "Indoor Temperature: 22.5°C",
     "GPS: 60.169900, 24.938400",
     "Last Service: 2024-10-15", "Last Updated: 2025-11-19T10:00:00Z"] := by decide

/-- A state whose loading flag is set absorbs any number of presses: each
press is a silent no-op, so no request is collected. -/
theorem rapidPresses_loading (s : ControllerState) (h : s.isLoading = true) :
    ∀ n, rapidPresses s n = (s, []) := by
  intro n
  induction n with
  | zero => rfl
  | succ k ih => simp [rapidPresses, submitStart, h, ih]

/-- Claim C1 counterexample: a state whose plate input is empty but whose
loading flag is set is an input state with empty trimmed plate in which
`submit` fires no alert at all (the loading guard runs first), refuting the
claim that every such state signals exactly the empty-plate alert. -/
theorem c1_counterexample :
    trimmedEmpty (ControllerState.mk "" true none).plateInput = true ∧
    (submit ⟨"", true, none⟩ (.success mockCarData)).requests = [] ∧
    (submit ⟨"", true, none⟩ (.success mockCarData)).alerts = [] ∧
    emptyPlateAlert ∉ (submit ⟨"", true, none⟩ (.success mockCarData)).alerts := by
  decide

/-- Claim C1 (amended: the controller must also not be loading): in every
state that is not loading and whose plate input trims to empty, `submit`
issues no HTTP request, signals exactly the empty-plate alert
("Error" / "Please enter a license plate number"), and leaves the whole state
(record and loading flag included) unchanged. -/
theorem c1_empty_plate_alert (s : ControllerState) (o : HttpOutcome)
    (h1 : s.isLoading = false) (h2 : trimmedEmpty s.plateInput = true) :
    (submit s o).requests = [] ∧
    (submit s o).alerts = [emptyPlateAlert] ∧
    (submit s o).state = s := by
  simp [submit, submitStart, h1, h2]

/-- Claim C1 witness: the amended claim at a concrete whitespace-only input. -/
theorem c1_empty_plate_alert_witness :
    (submit ⟨"   ", false, none⟩ (.success mockCarData)).requests = [] ∧
    (submit ⟨"   ", false, none⟩ (.success mockCarData)).alerts = [emptyPlateAlert] ∧
    (submit ⟨"   ", false, none⟩ (.success mockCarData)).state = ⟨"   ", false, none⟩ :=
  c1_empty_plate_alert ⟨"   ", false, none⟩ (.success mockCarData) rfl (by decide)

/-- Claim C2: while the loading flag is set, `submit` is a silent no-op
(no request, no alert, no state change), and consequently `n + 1` rapid
consecutive presses from an idle state with a valid plate issue exactly one
GET request. -/
theorem c2_loading_guard (s t : ControllerState) (o : HttpOutcome) (n : Nat)
    (hs : s.isLoading = true) (ht1 : t.isLoading = false)
    (ht2 : trimmedEmpty t.plateInput = false) :
    submit s o = ⟨s, [], []⟩ ∧
    (rapidPresses t (n + 1)).2 = [requestUrl t.plateInput] := by
  constructor
  · simp [submit, submitStart, hs]
  · simp [rapidPresses, submitStart, ht1, ht2, rapidPresses_loading]

/-- Claim C2 witness: a loading state absorbs `submit`, and three rapid
presses from the idle test state record exactly one request. -/
theorem c2_loading_guard_witness :
    submit ⟨"ABC-123", true, none⟩ (.success mockCarData)
      = ⟨⟨"ABC-123", true, none⟩, [], []⟩ ∧
    (rapidPresses ⟨"ABC-123", false, none⟩ 3).2 = [requestUrl "ABC-123"] :=
  c2_loading_guard ⟨"ABC-123", true, none⟩ ⟨"ABC-123", false, none⟩
    (.success mockCarData) 2 rfl rfl (by decide)

/-- Claim C3 counterexample: a state with a non-empty trimmed plate but with
the loading flag set issues no request at all, refuting the claim that every
non-empty plate input makes `submit` issue exactly one GET request. -/
theorem c3_counterexample :
    trimmedEmpty (ControllerState.mk "ABC-123" true none).plateInput = false ∧
    (submit ⟨"ABC-123", true, none⟩ (.success mockCarData)).requests = [] := by
  decide

/-- Claim C3 (amended: the controller must also not be loading): from every
idle state with a non-empty trimmed plate, `submit` issues exactly one GET
request, whose URL is the fixed base path concatenated with the literal plate
value, with no URL-encoding applied by the controller. -/
theorem c3_single_request_endpoint (s : ControllerState) (o : HttpOutcome)
    (h1 : s.isLoading = false) (h2 : trimmedEmpty s.plateInput = false) :
    (submit s o).requests = [requestUrl s.plateInput] ∧
    requestUrl s.plateInput = baseURL ++ "/api/car/" ++ s.plateInput := by
  cases o <;> simp [submit, submitStart, resolve, h1, h2, requestUrl]

/-- Claim C3 witness: the amended claim at a plate containing characters a
URL-encoder would rewrite, showing the literal value reaches the URL. -/
theorem c3_single_request_endpoint_witness :
    (submit ⟨"AB C#1", false, none⟩ (.success mockCarData)).requests
      = [requestUrl "AB C#1"] ∧
    requestUrl "AB C#1" = baseURL ++ "/api/car/" ++ "AB C#1" :=
  c3_single_request_endpoint ⟨"AB C#1", false, none⟩ (.success mockCarData)
    rfl (by decide)

/-- Claim C4: on a successful response, the decoded body replaces the record
wholesale (whatever record was stored before) and the loading flag resets. -/
theorem c4_success_replaces_record (s : ControllerState) (r : CarRecord)
    (h1 : s.isLoading = false) (h2 : trimmedEmpty s.plateInput = false) :
    (submit s (.success r)).state.record = some r ∧
    (submit s (.success r)).state.isLoading = false := by
  simp [submit, submitStart, resolve, h1, h2]

/-- Claim C4 witness: a successful fetch over a previously stored record
still replaces it wholesale. -/
theorem c4_success_replaces_record_witness :
    (submit ⟨"ABC-123", false, some mockNoGps⟩ (.success mockCarData)).state.record
      = some mockCarData ∧
    (submit ⟨"ABC-123", false, some mockNoGps⟩ (.success mockCarData)).state.isLoading
      = false :=
  c4_success_replaces_record ⟨"ABC-123", false, some mockNoGps⟩ mockCarData
    rfl (by decide)

/-- Claim C5: on any request failure the record keeps its prior value, the
loading flag resets, and exactly one alert fires, titled "Error", whose
message is the fixed prefix "Failed to fetch car data" followed by the
optional error detail. -/
theorem c5_failure_retains_record (s : ControllerState) (e : HttpError)
    (h1 : s.isLoading = false) (h2 : trimmedEmpty s.plateInput = false) :
    (submit s (.failure e)).state.record = s.record ∧
    (submit s (.failure e)).state.isLoading = false ∧
    (submit s (.failure e)).alerts
      = [⟨"Error", "Failed to fetch car data" ++ failDetail e⟩] := by
  simp [submit, submitStart, resolve, h1, h2, failMessage]

/-- Claim C5 witness: a network-error rejection leaves the stored record
stale and fires the prefixed alert. -/
theorem c5_failure_retains_record_witness :
    (submit ⟨"ABC-123", false, some mockCarData⟩
        (.failure ⟨some "Network Error", none⟩)).state.record = some mockCarData ∧
    (submit ⟨"ABC-123", false, some mockCarData⟩
        (.failure ⟨some "Network Error", none⟩)).state.isLoading = false ∧
    (submit ⟨"ABC-123", false, some mockCarData⟩
        (.failure ⟨some "Network Error", none⟩)).alerts
      = [⟨"Error", "Failed to fetch car data" ++ failDetail ⟨some "Network Error", none⟩⟩] :=
  c5_failure_retains_record ⟨"ABC-123", false, some mockCarData⟩
    ⟨some "Network Error", none⟩ rfl (by decide)

/-- Claim C6: the rendering of every present record carries the outdoor and
indoor temperatures formatted to one decimal place with a trailing degree
symbol, the owner and date strings verbatim, and, when GPS is present, the
coordinates formatted to six decimal places; the formatter meets the spec
examples 22.5 ↦ "22.5" and 60.1699 ↦ "60.169900". -/
theorem c6_display_formatting (r : CarRecord) :
    ("Outdoor Temperature: " ++ toFixed r.outdoorTemp 1 ++ "°C") ∈ render r ∧
    ("Indoor Temperature: " ++ toFixed r.indoorTemp 1 ++ "°C") ∈ render r ∧
    ("Owner: " ++ r.owner) ∈ render r ∧
    ("Last Service: " ++ r.lastService) ∈ render r ∧
    ("Last Updated: " ++ r.lastUpdated) ∈ render r ∧
    (∀ g : Gps, r.gps = some g →
      ("GPS: " ++ toFixed g.lat 6 ++ ", " ++ toFixed g.lng 6) ∈ render r) ∧
    toFixed (mkRat 225 10) 1 = "22.5" ∧
    toFixed (mkRat 601699 10000) 6 = "60.169900" := by
  refine ⟨?_, ?_, ?_, ?_, ?_, ?_, by decide, by decide⟩
  · simp [render, gpsLines]
  · simp [render, gpsLines]
  · simp [render, gpsLines]
  · simp [render, gpsLines]
  · simp [render, gpsLines]
  · intro g hg
    simp [render, gpsLines, hg]

/-- Claim C6 witness: the GPS conjunct of the formatting claim discharged at
the mock record of the tests. -/
theorem c6_display_formatting_witness :
    ("GPS: " ++ toFixed (mkRat 601699 10000) 6 ++ ", "
        ++ toFixed (mkRat 249384 10000) 6) ∈ render mockCarData :=
  (c6_display_formatting mockCarData).2.2.2.2.2.1
    ⟨mkRat 601699 10000, mkRat 249384 10000⟩ rfl

/-- Claim C7: for a record whose GPS field is null or absent, rendering is
the six-line block with the GPS line omitted entirely, and no rendered line
is a GPS line. -/
theorem c7_null_gps_safe (r : CarRecord) (h : r.gps = none) :
    render r =
      [renderHeader r,
       "Owner: " ++ r.owner,
       "Outdoor Temperature: " ++ toFixed r.outdoorTemp 1 ++ "°C",
       "Indoor Temperature: " ++ toFixed r.indoorTemp 1 ++ "°C",
       "Last Service: " ++ r.lastService,
       "Last Updated: " ++ r.lastUpdated] ∧
    ∀ l ∈ render r, isGpsLine l = false := by
  constructor
  · simp [render, gpsLines, h]
  · intro l hl
    simp [render, gpsLines, h] at hl
    rcases hl with rfl | rfl | rfl | rfl | rfl | rfl <;> rfl

/-- Claim C7 witness: the null-GPS rendering claim at the concrete record of
the missing-GPS test, together with its evaluated output. -/
theorem c7_null_gps_safe_witness :
    render mockNoGps =
      ["Car Information - ABC-123", "Owner: John Doe",
       "Outdoor Temperature: 15.2°C", "Indoor Temperature: 22.5°C",
       "Last Service: 2024-10-15", "Last Updated: 2025-11-19T10:00:00Z"] ∧
    (render mockNoGps).all (fun l => ! isGpsLine l) = true :=
  ⟨((c7_null_gps_safe mockNoGps rfl).1).trans (by decide), by decide⟩

/-- Claim C8: a failure whose error object carries no message still produces
a well-formed alert, titled "Error", with the bare prefix as its message:
building the alert text is total. -/
theorem c8_messageless_error_alert (s : ControllerState) (e : HttpError)
    (h1 : s.isLoading = false) (h2 : trimmedEmpty s.plateInput = false)
    (h3 : e.message = none) :
    (submit s (.failure e)).alerts = [⟨"Error", "Failed to fetch car data"⟩] := by
  simp [submit, submitStart, resolve, h1, h2, failMessage, failDetail, h3]

/-- Claim C8 witness: the 404-shaped rejection of the tests (a response with
a status and no message) still yields the alert. -/
theorem c8_messageless_error_alert_witness :
    (submit ⟨"INVALID-999", false, none⟩ (.failure notFoundError)).alerts
      = [⟨"Error", "Failed to fetch car data"⟩] :=
  c8_messageless_error_alert ⟨"INVALID-999", false, none⟩ notFoundError
    rfl (by decide) rfl

/-- Claim C9: after a completed `submit` from an idle valid state, success or
failure, the loading flag is false again and a further `submit` on the same
(unchanged) plate input issues a fresh request: no outcome blocks the
controller permanently. -/
theorem c9_always_resubmittable (s : ControllerState) (o o2 : HttpOutcome)
    (h1 : s.isLoading = false) (h2 : trimmedEmpty s.plateInput = false) :
    (submit s o).state.isLoading = false ∧
    (submit (submit s o).state o2).requests = [requestUrl s.plateInput] := by
  cases o <;> cases o2 <;> simp [submit, submitStart, resolve, h1, h2]

/-- Claim C9 witness: after a failed fetch, a second submit with the same
plate goes through and issues a new request. -/
theorem c9_always_resubmittable_witness :
    (submit ⟨"ABC-123", false, none⟩ (.failure ⟨some "Network Error", none⟩)).state.isLoading
      = false ∧
    (submit (submit ⟨"ABC-123", false, none⟩
        (.failure ⟨some "Network Error", none⟩)).state
      (.success mockCarData)).requests = [requestUrl "ABC-123"] :=
  c9_always_resubmittable ⟨"ABC-123", false, none⟩
    (.failure ⟨some "Network Error", none⟩) (.success mockCarData) rfl (by decide)

/-- Claim C10: the fixed base URL is "http://localhost:3001": every request
`submit` issues has URL "http://localhost:3001/api/car/" followed by the
plate value. -/
theorem c10_fixed_base_url (s : ControllerState) (o : HttpOutcome)
    (h1 : s.isLoading = false) (h2 : trimmedEmpty s.plateInput = false) :
    (submit s o).requests = ["http://localhost:3001/api/car/" ++ s.plateInput] ∧
    baseURL = "http://localhost:3001" := by
  cases o <;> simp [submit, submitStart, resolve, h1, h2, requestUrl, baseURL]

/-- Claim C10 witness: the issued URL at the plate of the endpoint test. -/
theorem c10_fixed_base_url_witness :
    (submit ⟨"ABC-123", false, none⟩ (.success mockCarData)).requests
      = ["http://localhost:3001/api/car/" ++ "ABC-123"] ∧
    baseURL = "http://localhost:3001" :=
  c10_fixed_base_url ⟨"ABC-123", false, none⟩ (.success mockCarData) rfl (by decide)

end CarApp
